import Mathlib

/-!
Verification of the Eudaimonia frontend data-fetching and rendering logic.

The development shallowly embeds the client-side components of the
repository: the JSON response handling shared by every list query, the
bearer-token request construction, the query-cache invalidation performed
by mutations, the create-post form submit handler, and the render
branching of the dashboard, Living World page and auth-gated dashboard
shell. Each definition is translated from the corresponding TypeScript
source; theorems state and settle the specified properties.
-/

namespace Eudaimonia

/-! ## JSON values

Parsed response bodies (the `response.data` of an axios call). Truthiness
follows JavaScript: `null`, `false`, `0` and the empty string are falsy;
arrays and objects (even empty) are truthy. -/

inductive Json where
  | null
  | bool (b : Bool)
  | num (n : Int)
  | str (s : String)
  | arr (elems : List Json)
  | obj (fields : List (String × Json))

/-- Lookup of a field in an object field list (first match wins). -/
def findField : List (String × Json) → String → Option Json
  | [], _ => none
  | (k, v) :: rest, name => if k = name then some v else findField rest name

/-- Property access `b.name`: `some` value when `b` is an object with the
field, `none` (JavaScript `undefined`) otherwise. -/
def Json.getField : Json → String → Option Json
  | .obj fields, name => findField fields name
  | _, _ => none

/-- JavaScript truthiness of a JSON value. -/
def Json.truthy : Json → Bool
  | .null => false
  | .bool b => b
  | .num n => n != 0
  | .str s => !s.isEmpty
  | .arr _ => true
  | .obj _ => true

/-- Embedding of `response.data.results || response.data`, the unwrap
performed by every list-fetching query function. -/
def unwrapResults (b : Json) : Json :=
  match b.getField "results" with
  | some r => if r.truthy then r else b
  | none => b

/-- Value stored in the cache by the `userMemberships` query function in
`components/Sidebar.tsx`, as a function of the parsed response body. -/
def userMembershipsQueryData (respBody : Json) : Json :=
  unwrapResults respBody

/-- Value stored in the cache by the `worldPosts` query function in
`app/dashboard/worlds/[worldId]/page.tsx`, as a function of the parsed
response body. -/
def worldPostsQueryData (respBody : Json) : Json :=
  unwrapResults respBody

/-! ## Whitespace trimming

Embedding of JavaScript `String.prototype.trim`: drop whitespace from both
ends of the character list. -/

/-- Trim whitespace characters from both ends of a character list. -/
def trimChars (l : List Char) : List Char :=
  ((l.dropWhile Char.isWhitespace).reverse.dropWhile Char.isWhitespace).reverse

/-- Embedding of `content.trim()`. -/
def jsTrim (s : String) : String :=
  ⟨trimChars s.data⟩

/-- Trimming yields the empty list exactly when every character is
whitespace. -/
theorem trimChars_eq_nil_iff (l : List Char) :
    trimChars l = [] ↔ ∀ c ∈ l, c.isWhitespace = true := by
  unfold trimChars
  rw [List.reverse_eq_nil_iff, List.dropWhile_eq_nil_iff]
  constructor
  · intro h c hc
    have hsplit := List.takeWhile_append_dropWhile Char.isWhitespace l
    rw [← hsplit] at hc
    rcases List.mem_append.mp hc with h1 | h2
    · exact List.mem_takeWhile_imp h1
    · exact h c (List.mem_reverse.mpr h2)
  · intro h c hc
    have hc2 : c ∈ l.dropWhile Char.isWhitespace := List.mem_reverse.mp hc
    exact h c ((List.dropWhile_sublist Char.isWhitespace).mem hc2)

/-! ## Local storage and request construction

Embedding of `localStorage` and of the request each query function issues:
the token is read from the store passed to the function at call time, and
`Bearer ${token}` renders a missing token (JavaScript `null`) as the
string "null". -/

/-- Browser local storage: an association of keys to string values. -/
abbrev LocalStorage := List (String × String)

/-- Embedding of `localStorage.getItem`. -/
def LocalStorage.getItem : LocalStorage → String → Option String
  | [], _ => none
  | (k, v) :: rest, key => if k = key then some v else LocalStorage.getItem rest key

/-- Embedding of `localStorage.setItem`. -/
def LocalStorage.setItem : LocalStorage → String → String → LocalStorage
  | [], key, val => [(key, val)]
  | (k, v) :: rest, key, val =>
      if k = key then (key, val) :: rest
      else (k, v) :: LocalStorage.setItem rest key val

/-- Template interpolation of a possibly-missing token. -/
def renderToken : Option String → String
  | some t => t
  | none => "null"

/-- The Authorization header value built in every query and mutation
function: `Bearer ${localStorage.getItem('authToken')}`. -/
def authHeaderValue (store : LocalStorage) : String :=
  "Bearer " ++ renderToken (store.getItem "authToken")

/-- An outbound HTTP request as constructed by a query function. -/
structure HttpRequest where
  method : String
  path : String
  authorization : String
  deriving DecidableEq, Repr

/-- Request issued by the `userMemberships` query function in
`components/Sidebar.tsx`; the store is the local storage state at call
time. -/
def userMembershipsRequest (store : LocalStorage) : HttpRequest :=
  { method := "GET", path := "/api/memberships/", authorization := authHeaderValue store }

/-- Request issued by the `['world', worldId]` query function in
`app/dashboard/worlds/[worldId]/page.tsx`. -/
def worldDetailRequest (worldId : String) (store : LocalStorage) : HttpRequest :=
  { method := "GET", path := "/api/worlds/" ++ worldId ++ "/",
    authorization := authHeaderValue store }

/-- Setting a key makes `getItem` of that key return the new value. -/
theorem getItem_setItem (store : LocalStorage) (key val : String) :
    (store.setItem key val).getItem key = some val := by
  induction store with
  | nil => simp [LocalStorage.setItem, LocalStorage.getItem]
  | cons hd tl ih =>
      obtain ⟨k, v⟩ := hd
      by_cases hk : k = key
      · simp [LocalStorage.setItem, LocalStorage.getItem, hk]
      · simp [LocalStorage.setItem, LocalStorage.getItem, hk, ih]

/-! ## Query cache and mutations

The query cache records which keys have been invalidated; a mutation
settles with success or failure, running its `onSuccess` callback only in
the former case. -/

/-- A react-query key: a plain string or a `[name, param]` tuple. -/
inductive QueryKey where
  | str (name : String)
  | pair (name : String) (param : String)
  deriving DecidableEq, Repr

/-- Cache state observed through invalidation. -/
structure QueryCacheState where
  invalidated : List QueryKey
  deriving DecidableEq, Repr

/-- Embedding of `queryClient.invalidateQueries(key)`. -/
def invalidateQueries (key : QueryKey) (cache : QueryCacheState) : QueryCacheState :=
  ⟨key :: cache.invalidated⟩

/-- Outcome of an awaited mutation request. -/
inductive MutationOutcome where
  | success
  | failure
  deriving DecidableEq, Repr

/-- Settlement of `createPostMutation` in
`app/dashboard/worlds/[worldId]/page.tsx`: `onSuccess` invalidates
`['worldPosts', worldId]`; no handler runs on failure. -/
def createPostMutationSettle (worldId : String) (outcome : MutationOutcome)
    (cache : QueryCacheState) : QueryCacheState :=
  match outcome with
  | .success => invalidateQueries (.pair "worldPosts" worldId) cache
  | .failure => cache

/-- Settlement of `voteMutation` in
`app/dashboard/worlds/[worldId]/page.tsx`: `onSuccess` invalidates
`['worldProposals', worldId]`. -/
def voteMutationSettle (worldId : String) (outcome : MutationOutcome)
    (cache : QueryCacheState) : QueryCacheState :=
  match outcome with
  | .success => invalidateQueries (.pair "worldProposals" worldId) cache
  | .failure => cache

/-- State of the react-hook-form profile form. -/
structure ProfileFormState where
  nameField : String
  deriving DecidableEq, Repr

/-- Embedding of `reset()` on the profile creation form. -/
def resetForm (_form : ProfileFormState) : ProfileFormState :=
  ⟨""⟩

/-- Settlement of `createProfileMutation` in
`app/dashboard/profiles/page.tsx`: `onSuccess` invalidates
`'smartProfiles'` and resets the form. -/
def createProfileMutationSettle (outcome : MutationOutcome)
    (cache : QueryCacheState) (form : ProfileFormState) :
    QueryCacheState × ProfileFormState :=
  match outcome with
  | .success => (invalidateQueries (.str "smartProfiles") cache, resetForm form)
  | .failure => (cache, form)

/-! ## Query declarations

One record per `useQuery` call in the repository, with the options object
the call passes: `retry` is `some false` when the call passes
`retry: false` and `none` when the call passes no such option (the
library default, which retries failed fetches); `onError` is the handler
passed, when any. -/

/-- An error side-effect handler passed to `useQuery`. -/
inductive ErrorEffect where
  | consoleLog (label : String)
  deriving DecidableEq, Repr

/-- Options object passed to a `useQuery` call. -/
structure QueryOptions where
  retry : Option Bool
  onError : Option ErrorEffect
  deriving DecidableEq, Repr

/-- A `useQuery` call site. -/
structure QueryDecl where
  sourceFile : String
  key : QueryKey
  options : QueryOptions
  deriving DecidableEq, Repr

/-- The `'userMemberships'` query in `components/Sidebar.tsx`. -/
def sidebarUserMembershipsQuery : QueryDecl :=
  { sourceFile := "components/Sidebar.tsx",
    key := .str "userMemberships",
    options := { retry := some false,
                 onError := some (.consoleLog "Error fetching memberships:") } }

/-- The `['world', worldId]` query on the Living World page. -/
def worldDetailQuery (worldId : String) : QueryDecl :=
  { sourceFile := "app/dashboard/worlds/[worldId]/page.tsx",
    key := .pair "world" worldId,
    options := { retry := some false,
                 onError := some (.consoleLog "Error fetching world:") } }

/-- The `['worldPosts', worldId]` query on the Living World page. -/
def worldPostsQuery (worldId : String) : QueryDecl :=
  { sourceFile := "app/dashboard/worlds/[worldId]/page.tsx",
    key := .pair "worldPosts" worldId,
    options := { retry := some false,
                 onError := some (.consoleLog "Error fetching posts:") } }

/-- The `['worldMembers', worldId]` query on the Living World page. -/
def worldMembersQuery (worldId : String) : QueryDecl :=
  { sourceFile := "app/dashboard/worlds/[worldId]/page.tsx",
    key := .pair "worldMembers" worldId,
    options := { retry := some false,
                 onError := some (.consoleLog "Error fetching members:") } }

/-- The `['worldProposals', worldId]` query on the Living World page. -/
def worldProposalsQuery (worldId : String) : QueryDecl :=
  { sourceFile := "app/dashboard/worlds/[worldId]/page.tsx",
    key := .pair "worldProposals" worldId,
    options := { retry := some false,
                 onError := some (.consoleLog "Error fetching proposals:") } }

/-- The `'smartProfiles'` query in `app/dashboard/profiles/page.tsx`: the
call passes no options object at all. -/
def profilesSmartProfilesQuery : QueryDecl :=
  { sourceFile := "app/dashboard/profiles/page.tsx",
    key := .str "smartProfiles",
    options := { retry := none, onError := none } }

/-- The `'userWorlds'` query on the dashboard page. -/
def dashboardUserWorldsQuery : QueryDecl :=
  { sourceFile := "app/dashboard/page.tsx",
    key := .str "userWorlds",
    options := { retry := some false,
                 onError := some (.consoleLog "Error fetching worlds:") } }

/-- The `'recentPosts'` query on the dashboard page. -/
def dashboardRecentPostsQuery : QueryDecl :=
  { sourceFile := "app/dashboard/page.tsx",
    key := .str "recentPosts",
    options := { retry := some false,
                 onError := some (.consoleLog "Error fetching posts:") } }

/-- The `'smartProfiles'` query on the dashboard page. -/
def dashboardSmartProfilesQuery : QueryDecl :=
  { sourceFile := "app/dashboard/page.tsx",
    key := .str "smartProfiles",
    options := { retry := some false,
                 onError := some (.consoleLog "Error fetching smart profiles:") } }

/-- Every `useQuery` call site in the repository, for a given Living
World page parameter. -/
def allQueryDecls (worldId : String) : List QueryDecl :=
  [sidebarUserMembershipsQuery,
   worldDetailQuery worldId,
   worldPostsQuery worldId,
   worldMembersQuery worldId,
   worldProposalsQuery worldId,
   profilesSmartProfilesQuery,
   dashboardUserWorldsQuery,
   dashboardRecentPostsQuery,
   dashboardSmartProfilesQuery]

/-! ## Create-post form

Embedding of `components/CreatePostForm.tsx`: the submit button is
disabled while the trimmed content is empty or a mutation is in flight;
the submit handler calls `onSubmit(content.trim())` and clears the
textarea only when the trimmed content is truthy (non-empty). -/

/-- The `disabled` expression of the submit button:
`!content.trim() || isLoading`. -/
def submitDisabled (content : String) (isLoading : Bool) : Bool :=
  (jsTrim content).data.isEmpty || isLoading

/-- Effect of one run of `handleSubmit`: the argument passed to
`onSubmit` (when it is invoked) and the textarea state afterwards. -/
structure SubmitResult where
  onSubmitArg : Option String
  newContent : String
  deriving DecidableEq, Repr

/-- Embedding of `handleSubmit` in `components/CreatePostForm.tsx`. -/
def handleSubmit (content : String) : SubmitResult :=
  if (jsTrim content).data.isEmpty then
    { onSubmitArg := none, newContent := content }
  else
    { onSubmitArg := some (jsTrim content), newContent := "" }

/-- State of the posts tab of the Living World page that the submit flow
touches: the textarea content and the query cache. -/
structure PostsTabState where
  content : String
  cache : QueryCacheState
  deriving DecidableEq, Repr

/-- The full submit flow on the posts tab: the form handler runs
synchronously (clearing the textarea and invoking the mutation when the
trimmed content is non-empty), and the mutation later settles with the
given outcome. -/
def submitPost (worldId : String) (st : PostsTabState)
    (outcome : MutationOutcome) : PostsTabState :=
  let r := handleSubmit st.content
  match r.onSubmitArg with
  | some _ => { content := r.newContent,
                cache := createPostMutationSettle worldId outcome st.cache }
  | none => { content := r.newContent, cache := st.cache }

/-! ## Auth-gated dashboard shell

Embedding of the `DashboardPage` component: branch on the session status
of `useSession`, redirecting unauthenticated visitors. -/

/-- Session status reported by the auth library. -/
inductive SessionStatus where
  | loading
  | authenticated
  | unauthenticated
  deriving DecidableEq, Repr

/-- User record inside a session. -/
structure SessionUser where
  name : Option String
  email : Option String
  deriving DecidableEq, Repr

/-- An auth session. -/
structure Session where
  user : Option SessionUser
  deriving DecidableEq, Repr

/-- JavaScript `a || b` on optional strings: the empty string is falsy. -/
def jsOrString (a b : Option String) : Option String :=
  match a with
  | some s => if s.isEmpty then b else some s
  | none => b

/-- The greeting name `session?.user?.name || session?.user?.email`. -/
def sessionDisplayName (session : Option Session) : Option String :=
  jsOrString ((session.bind Session.user).bind SessionUser.name)
    ((session.bind Session.user).bind SessionUser.email)

/-- Rendered output of the auth-gated dashboard shell. -/
inductive ShellView where
  | loadingText
  | nullView
  | dashboard (welcome : Option String) (sessionDump : Option Session)
  deriving DecidableEq, Repr

/-- Result of rendering the shell: an optional navigation and a view. -/
structure ShellRender where
  redirect : Option String
  view : ShellView
  deriving DecidableEq, Repr

/-- Embedding of the `DashboardPage` component (auth shell). -/
def DashboardShell (status : SessionStatus) (session : Option Session) :
    ShellRender :=
  match status with
  | .loading => { redirect := none, view := .loadingText }
  | .unauthenticated => { redirect := some "/auth/signin", view := .nullView }
  | .authenticated =>
      { redirect := none,
        view := .dashboard (sessionDisplayName session) session }

/-! ## Living World page

Embedding of the top-level branching of `LivingWorldPage`: a spinner
while the world query loads, a static fallback when it produced no world,
the themed world content otherwise. -/

/-- Owner record of a Living World. -/
structure WorldOwner where
  username : String
  deriving DecidableEq, Repr

/-- A Living World as consumed by the world page. -/
structure World where
  id : String
  name : String
  description : String
  owner : WorldOwner
  memberCount : Nat
  deriving DecidableEq, Repr

/-- Rendered output of the Living World page. -/
inductive WorldPageView where
  | loadingSpinner
  | worldNotFound
  | worldContent (name : String) (description : String)
      (ownerName : String) (memberCount : Nat) (activeTab : String)
  deriving DecidableEq, Repr

/-- Embedding of the render branching of `LivingWorldPage`. -/
def LivingWorldPage (worldLoading : Bool) (world : Option World)
    (activeTab : String) : WorldPageView :=
  if worldLoading then .loadingSpinner
  else
    match world with
    | none => .worldNotFound
    | some w => .worldContent w.name w.description w.owner.username w.memberCount activeTab

/-! ## Dashboard page

Embedding of the `Dashboard` component: three cached queries
(`userWorlds`, `recentPosts`, `smartProfiles`) plus a `userProfile` state
filled by a `useEffect` fetch of `/api/me/profile/`. The rendered
"Your Living Worlds" section branches on the `userWorlds` loading flag
and then only on `userProfile.community_memberships`. -/

/-- A membership entry of the profile response consumed by the
dashboard. -/
structure DashMembership where
  worldId : String
  worldName : String
  profileName : String
  role : String
  reputation : Int
  deriving DecidableEq, Repr

/-- The `/api/me/profile/` response held in the `userProfile` state. -/
structure UserProfile where
  username : Option String
  communityMemberships : List DashMembership
  deriving DecidableEq, Repr

/-- A Smart Profile as rendered on the dashboard. -/
structure SmartProfile where
  id : String
  name : String
  did : Option String
  deriving DecidableEq, Repr

/-- A post as rendered in the Recent Activity section. -/
structure DashPost where
  id : String
  content : String
  authorName : String
  worldName : String
  createdAt : String
  deriving DecidableEq, Repr

/-- Render state of the "Your Living Worlds" section. -/
inductive WorldsSection where
  | skeleton
  | links (memberships : List DashMembership)
  | discoverPrompt
  deriving DecidableEq, Repr

/-- Render state of the "Your Smart Profiles" section. -/
inductive ProfilesSection where
  | skeleton
  | cards (profiles : List SmartProfile)
  | createPrompt
  deriving DecidableEq, Repr

/-- Render state of the "Recent Activity" section. -/
inductive ActivitySection where
  | skeleton
  | items (posts : List DashPost)
  | noActivity
  deriving DecidableEq, Repr

/-- Inputs of one render of the `Dashboard` component: the data and
loading flag of each query, and the `userProfile` state. -/
structure DashboardProps where
  worlds : Option Json
  worldsLoading : Bool
  posts : Option (List DashPost)
  postsLoading : Bool
  smartProfiles : Option (List SmartProfile)
  profilesLoading : Bool
  userProfile : Option UserProfile

/-- Rendered output of the `Dashboard` component. -/
structure DashboardView where
  welcomeName : String
  profilesSection : ProfilesSection
  worldsSection : WorldsSection
  activitySection : ActivitySection
  deriving DecidableEq, Repr

/-- The greeting `userProfile?.username || 'User'`. -/
def dashboardWelcomeName (userProfile : Option UserProfile) : String :=
  match userProfile.bind UserProfile.username with
  | some n => if n.isEmpty then "User" else n
  | none => "User"

/-- Embedding of one render of the `Dashboard` component. -/
def dashboardRender (st : DashboardProps) : DashboardView :=
  { welcomeName := dashboardWelcomeName st.userProfile,
    profilesSection :=
      if st.profilesLoading then .skeleton
      else
        match st.smartProfiles with
        | some ps => if ps.length > 0 then .cards (ps.take 4) else .createPrompt
        | none => .createPrompt,
    worldsSection :=
      if st.worldsLoading then .skeleton
      else
        match st.userProfile with
        | some p =>
            if p.communityMemberships.length > 0 then
              .links (p.communityMemberships.take 3)
            else .discoverPrompt
        | none => .discoverPrompt,
    activitySection :=
      if st.postsLoading then .skeleton
      else
        match st.posts with
        | some ps => if ps.length > 0 then .items (ps.take 3) else .noActivity
        | none => .noActivity }

/-! ## Theorems -/

/-- C1: each mutation invalidates exactly the Query Cache key its write
affects, and only on success — creating a post invalidates
`[worldPosts, worldId]`, casting a vote invalidates
`[worldProposals, worldId]`, creating a profile invalidates
`smartProfiles` — while on failure no invalidation occurs and the cache
state is unchanged. -/
theorem C1_mutation_invalidation (worldId : String) (cache : QueryCacheState)
    (form : ProfileFormState) :
    (createPostMutationSettle worldId .success cache).invalidated
        = QueryKey.pair "worldPosts" worldId :: cache.invalidated ∧
    createPostMutationSettle worldId .failure cache = cache ∧
    (voteMutationSettle worldId .success cache).invalidated
        = QueryKey.pair "worldProposals" worldId :: cache.invalidated ∧
    voteMutationSettle worldId .failure cache = cache ∧
    ((createProfileMutationSettle .success cache form).1).invalidated
        = QueryKey.str "smartProfiles" :: cache.invalidated ∧
    (createProfileMutationSettle .failure cache form).1 = cache :=
  ⟨rfl, rfl, rfl, rfl, rfl, rfl⟩

/-- C2 counterexample: the `smartProfiles` query of the profiles page is
issued through the Query Cache Layer but passes neither `retry: false`
nor an `onError` handler, so the library default retry policy applies to
it. -/
theorem C2_counterexample :
    profilesSmartProfilesQuery ∈ allQueryDecls "w1" ∧
    profilesSmartProfilesQuery.options.retry ≠ some false ∧
    profilesSmartProfilesQuery.options.onError = none :=
  ⟨by simp [allQueryDecls], by decide, rfl⟩

/-- C2 amended: every `useQuery` call site except the `smartProfiles`
query of the profiles page passes `retry: false` and an `onError`
side-effect limited to console logging; that one call site passes no
options at all. -/
theorem C2_retry_policy (worldId : String) (q : QueryDecl)
    (hq : q ∈ allQueryDecls worldId) :
    q = profilesSmartProfilesQuery ∨
      (q.options.retry = some false ∧
        ∃ msg, q.options.onError = some (.consoleLog msg)) := by
  simp only [allQueryDecls, List.mem_cons, List.not_mem_nil, or_false] at hq
  rcases hq with rfl | rfl | rfl | rfl | rfl | rfl | rfl | rfl | rfl
  · exact Or.inr ⟨rfl, _, rfl⟩
  · exact Or.inr ⟨rfl, _, rfl⟩
  · exact Or.inr ⟨rfl, _, rfl⟩
  · exact Or.inr ⟨rfl, _, rfl⟩
  · exact Or.inr ⟨rfl, _, rfl⟩
  · exact Or.inl rfl
  · exact Or.inr ⟨rfl, _, rfl⟩
  · exact Or.inr ⟨rfl, _, rfl⟩
  · exact Or.inr ⟨rfl, _, rfl⟩

/-- C2 witness: the sidebar memberships query is in the list and
satisfies the amended policy. -/
theorem C2_retry_policy_witness :
    sidebarUserMembershipsQuery ∈ allQueryDecls "w1" ∧
    (sidebarUserMembershipsQuery = profilesSmartProfilesQuery ∨
      (sidebarUserMembershipsQuery.options.retry = some false ∧
        ∃ msg, sidebarUserMembershipsQuery.options.onError
            = some (.consoleLog msg))) :=
  ⟨by simp [allQueryDecls],
   C2_retry_policy "w1" sidebarUserMembershipsQuery (by simp [allQueryDecls])⟩

/-- Response body exhibiting the gap between the claim and the code: the
`results` field is present but holds `null`. -/
def falsyResultsBody : Json :=
  .obj [("results", .null)]

/-- C3 counterexample: on a body whose `results` field is present but
`null`, the query function stores the body itself, not the value of the
`results` field, because the source uses a truthiness test
(`data.results || data`), not a presence test. -/
theorem C3_counterexample :
    falsyResultsBody.getField "results" = some Json.null ∧
    userMembershipsQueryData falsyResultsBody = falsyResultsBody ∧
    userMembershipsQueryData falsyResultsBody ≠ Json.null :=
  ⟨rfl, rfl, fun h => Json.noConfusion h⟩

/-- C3 amended: the list-fetching query functions store `b.results` when
the `results` field is present with a truthy value, and `b` itself when
the field is absent or its value is falsy (`null`, `false`, `0` or the
empty string). -/
theorem C3_results_unwrap (b : Json) :
    userMembershipsQueryData b = unwrapResults b ∧
    worldPostsQueryData b = unwrapResults b ∧
    (∀ r, b.getField "results" = some r → r.truthy = true → unwrapResults b = r) ∧
    (∀ r, b.getField "results" = some r → r.truthy = false → unwrapResults b = b) ∧
    (b.getField "results" = none → unwrapResults b = b) := by
  refine ⟨rfl, rfl, ?_, ?_, ?_⟩
  · intro r hr ht
    simp [unwrapResults, hr, ht]
  · intro r hr ht
    simp [unwrapResults, hr, ht]
  · intro h
    simp [unwrapResults, h]

/-- C3 witness: a paginated body with an empty result array is unwrapped
to that array. -/
theorem C3_results_unwrap_witness :
    (Json.obj [("results", Json.arr [])]).getField "results"
        = some (Json.arr []) ∧
    (Json.arr []).truthy = true ∧
    unwrapResults (Json.obj [("results", Json.arr [])]) = Json.arr [] :=
  ⟨rfl, rfl,
   (C3_results_unwrap (Json.obj [("results", Json.arr [])])).2.2.1
     (Json.arr []) rfl rfl⟩

/-- C4: with status `unauthenticated` the dashboard shell issues a
redirect to `/auth/signin` and renders null, and for every status other
than `authenticated` the rendered output is independent of the session,
so no session-derived data is exposed. -/
theorem C4_unauthenticated_redirect (status : SessionStatus)
    (session s1 s2 : Option Session) (h : status ≠ .authenticated) :
    (DashboardShell .unauthenticated session).redirect = some "/auth/signin" ∧
    (DashboardShell .unauthenticated session).view = .nullView ∧
    DashboardShell status s1 = DashboardShell status s2 := by
  refine ⟨rfl, rfl, ?_⟩
  cases status with
  | loading => rfl
  | unauthenticated => rfl
  | authenticated => exact absurd rfl h

/-- C4 witness: the loading status is not `authenticated`, and with it
the shell output ignores a populated session. -/
theorem C4_unauthenticated_redirect_witness :
    (DashboardShell .unauthenticated none).redirect = some "/auth/signin" ∧
    (DashboardShell .unauthenticated none).view = .nullView ∧
    DashboardShell .loading (some ⟨some ⟨some "Ada", none⟩⟩)
        = DashboardShell .loading none :=
  C4_unauthenticated_redirect .loading none
    (some ⟨some ⟨some "Ada", none⟩⟩) none (by decide)

/-- Trimming a string to the empty string is equivalent to every
character being whitespace. -/
theorem jsTrim_data_isEmpty (s : String) :
    ((jsTrim s).data.isEmpty = true) ↔ ∀ c ∈ s.data, c.isWhitespace = true := by
  rw [List.isEmpty_eq_true]
  exact trimChars_eq_nil_iff s.data

/-- C5: the submit button of the create-post form is enabled only when
the content holds at least one non-whitespace character, the submit
handler invokes `onSubmit` exactly when it does, and the invoked callback
receives the content with leading and trailing whitespace removed. -/
theorem C5_create_post_validation (content : String) (isLoading : Bool) :
    (submitDisabled content isLoading = false →
      ∃ c ∈ content.data, c.isWhitespace = false) ∧
    ((handleSubmit content).onSubmitArg.isSome = true ↔
      ∃ c ∈ content.data, c.isWhitespace = false) ∧
    (∀ s, (handleSubmit content).onSubmitArg = some s → s = jsTrim content) := by
  have hiff : ((jsTrim content).data.isEmpty = false) ↔
      ∃ c ∈ content.data, c.isWhitespace = false := by
    rw [Bool.eq_false_iff, Ne, jsTrim_data_isEmpty]
    push_neg
    constructor
    · rintro ⟨c, hc, hw⟩
      exact ⟨c, hc, by simpa using hw⟩
    · rintro ⟨c, hc, hw⟩
      exact ⟨c, hc, by simpa using hw⟩
  have hsome : (handleSubmit content).onSubmitArg.isSome
      = !(jsTrim content).data.isEmpty := by
    unfold handleSubmit
    by_cases he : (jsTrim content).data.isEmpty = true
    · rw [if_pos he, he]
      rfl
    · rw [if_neg he, Bool.eq_false_iff.mpr he]
      rfl
  refine ⟨?_, ?_, ?_⟩
  · intro hd
    apply hiff.mp
    rcases Bool.or_eq_false_iff.mp hd with ⟨h1, _⟩
    exact h1
  · rw [hsome, Bool.not_eq_eq_eq_not, Bool.not_true]
    exact hiff
  · intro s hs
    unfold handleSubmit at hs
    by_cases he : (jsTrim content).data.isEmpty = true
    · rw [if_pos he] at hs
      exact Option.noConfusion (show (none : Option String) = some s from hs)
    · rw [if_neg he] at hs
      have hs2 : some (jsTrim content) = some s := hs
      injection hs2 with h
      exact h.symm

/-- C5 witness: on the content " hello " with no mutation in flight the
button is enabled, a non-whitespace character exists, and the handler
passes the trimmed content. -/
theorem C5_create_post_validation_witness :
    submitDisabled " hello " false = false ∧
    (∃ c ∈ (" hello " : String).data, c.isWhitespace = false) ∧
    "hello" = jsTrim " hello " :=
  ⟨by decide,
   (C5_create_post_validation " hello " false).1 (by decide),
   (C5_create_post_validation " hello " false).2.2 "hello" (by decide)⟩

/-- C6: every request function reads the bearer token from the
`authToken` key of local storage at call time and attaches it as the
Authorization header `Bearer <token>`; after a token rotation via
`setItem` the next call carries the new token, and the header depends
only on the storage contents at the moment of the call. -/
theorem C6_token_read_at_call_time (store s1 s2 : LocalStorage)
    (worldId t1 t2 : String) :
    (userMembershipsRequest store).authorization
        = "Bearer " ++ renderToken (store.getItem "authToken") ∧
    (worldDetailRequest worldId store).authorization
        = "Bearer " ++ renderToken (store.getItem "authToken") ∧
    (worldDetailRequest worldId store).path = "/api/worlds/" ++ worldId ++ "/" ∧
    (userMembershipsRequest (store.setItem "authToken" t1)).authorization
        = "Bearer " ++ t1 ∧
    (userMembershipsRequest
        ((store.setItem "authToken" t1).setItem "authToken" t2)).authorization
        = "Bearer " ++ t2 ∧
    (s1.getItem "authToken" = s2.getItem "authToken" →
      (userMembershipsRequest s1).authorization
          = (userMembershipsRequest s2).authorization) := by
  refine ⟨rfl, rfl, rfl, ?_, ?_, ?_⟩
  · simp [userMembershipsRequest, authHeaderValue, getItem_setItem, renderToken]
  · simp [userMembershipsRequest, authHeaderValue, getItem_setItem, renderToken]
  · intro h
    simp [userMembershipsRequest, authHeaderValue, h]

/-- C6 witness: two stores agreeing on the token produce the same
header. -/
theorem C6_token_read_at_call_time_witness :
    (LocalStorage.getItem [("authToken", "tok1")] "authToken"
        = LocalStorage.getItem [("other", "x"), ("authToken", "tok1")] "authToken") ∧
    (userMembershipsRequest [("authToken", "tok1")]).authorization
        = (userMembershipsRequest [("other", "x"), ("authToken", "tok1")]).authorization :=
  ⟨by decide,
   (C6_token_read_at_call_time [] [("authToken", "tok1")]
      [("other", "x"), ("authToken", "tok1")] "w" "a" "b").2.2.2.2.2 (by decide)⟩

/-- C7: when the world query is not loading and produced no world data,
the Living World page renders the static not-found fallback, whatever the
active tab. -/
theorem C7_world_not_found (activeTab : String) :
    LivingWorldPage false none activeTab = .worldNotFound :=
  rfl

/-- C8: when the worlds query is not loading and the user has no
memberships — no profile was fetched, or the fetched profile holds an
empty membership list — the dashboard worlds section renders the
discover-worlds empty-state prompt. -/
theorem C8_empty_memberships_prompt (st : DashboardProps)
    (hload : st.worldsLoading = false)
    (hprof : st.userProfile = none ∨
      ∃ p, st.userProfile = some p ∧ p.communityMemberships = []) :
    (dashboardRender st).worldsSection = .discoverPrompt := by
  rcases hprof with h | ⟨p, hp, hm⟩
  · simp [dashboardRender, hload, h]
  · simp [dashboardRender, hload, hp, hm]

/-- Dashboard render inputs used by the C8 witness: a fetched profile
with an empty membership list. -/
def emptyMembershipsProps : DashboardProps :=
  { worlds := some (Json.arr []), worldsLoading := false,
    posts := some [], postsLoading := false,
    smartProfiles := some [], profilesLoading := false,
    userProfile := some { username := some "ada", communityMemberships := [] } }

/-- C8 witness: the concrete dashboard state above renders the
discover-worlds prompt. -/
theorem C8_empty_memberships_prompt_witness :
    emptyMembershipsProps.worldsLoading = false ∧
    (∃ p, emptyMembershipsProps.userProfile = some p ∧
        p.communityMemberships = []) ∧
    (dashboardRender emptyMembershipsProps).worldsSection = .discoverPrompt :=
  ⟨rfl, ⟨_, rfl, rfl⟩,
   C8_empty_memberships_prompt emptyMembershipsProps rfl (Or.inr ⟨_, rfl, rfl⟩)⟩

/-- C9: the rendered worlds section is a function of the loading flags
and the profile state only — two dashboard renders that agree on those
but differ arbitrarily in the resolved `userWorlds` query data produce an
identical "Your Living Worlds" section. -/
theorem C9_worlds_query_noninterference (s1 s2 : DashboardProps)
    (hw : s1.worldsLoading = s2.worldsLoading)
    (_hp : s1.postsLoading = s2.postsLoading)
    (_hf : s1.profilesLoading = s2.profilesLoading)
    (hu : s1.userProfile = s2.userProfile) :
    (dashboardRender s1).worldsSection = (dashboardRender s2).worldsSection := by
  simp [dashboardRender, hw, hu]

/-- Dashboard render inputs used by the C9 witness, first run. -/
def noninterferenceProps1 : DashboardProps :=
  { worlds := some (Json.arr [Json.str "m1"]), worldsLoading := false,
    posts := none, postsLoading := false,
    smartProfiles := none, profilesLoading := false,
    userProfile := some { username := some "ada", communityMemberships := [] } }

/-- Dashboard render inputs used by the C9 witness, second run: same
loading flags and profile, different `userWorlds` data. -/
def noninterferenceProps2 : DashboardProps :=
  { noninterferenceProps1 with worlds := some Json.null }

/-- C9 witness: the two runs differ in the `userWorlds` data yet render
the same worlds section. -/
theorem C9_worlds_query_noninterference_witness :
    noninterferenceProps1.worlds ≠ noninterferenceProps2.worlds ∧
    (dashboardRender noninterferenceProps1).worldsSection
        = (dashboardRender noninterferenceProps2).worldsSection :=
  ⟨by simp [noninterferenceProps1, noninterferenceProps2],
   C9_worlds_query_noninterference noninterferenceProps1 noninterferenceProps2
     rfl rfl rfl rfl⟩

/-- C10: on a submission whose trimmed content is non-empty the textarea
state is cleared synchronously by the submit handler, and the cleared
state does not depend on how the post mutation later settles. -/
theorem C10_content_cleared_unconditionally (worldId : String)
    (st : PostsTabState) (outcome : MutationOutcome)
    (h : trimChars st.content.data ≠ []) :
    (handleSubmit st.content).newContent = "" ∧
    (submitPost worldId st outcome).content = "" ∧
    (submitPost worldId st .success).content
        = (submitPost worldId st .failure).content := by
  have he : (jsTrim st.content).data.isEmpty = false :=
    List.isEmpty_eq_false.mpr h
  have hh : handleSubmit st.content
      = { onSubmitArg := some (jsTrim st.content), newContent := "" } := by
    unfold handleSubmit
    rw [if_neg (by rw [he]; exact Bool.false_ne_true)]
  refine ⟨by rw [hh], ?_, ?_⟩
  · unfold submitPost
    rw [hh]
  · unfold submitPost
    rw [hh]

/-- C10 witness: submitting " hi " clears the textarea even when the
mutation fails. -/
theorem C10_content_cleared_unconditionally_witness :
    trimChars (" hi " : String).data ≠ [] ∧
    (submitPost "w1" ⟨" hi ", ⟨[]⟩⟩ .failure).content = "" :=
  ⟨by decide,
   (C10_content_cleared_unconditionally "w1" ⟨" hi ", ⟨[]⟩⟩ .failure
      (by decide)).2.1⟩

end Eudaimonia
